import Mathlib

/-!
Verification development for the payzcore/shopify integration.

The definitions below are a shallow embedding of the TypeScript sources:

* `src/src/store.ts` — the Redis-backed store of payment mappings
  (`PaymentMapping`, `getPaymentMapping`, `savePaymentMapping`,
  `updatePaymentMappingStatus`).  Redis is modelled as an association list
  from keys to entries carrying a time-to-live, with first-match lookup and
  in-place replacement on `SET`.
* `src/src/middleware/verify-payzcore.ts` — the webhook signature
  verification middleware.  `crypto.createHmac('sha256', secret)` and
  `new Date(ts).getTime()` are abstracted as function parameters
  (`hmacSha256Hex`, `parseTimestamp`); `timingSafeEqual` over the
  hex-decoded buffers is modelled as case-insensitive equality of the two
  hex strings (both buffers have length 32 because the supplied signature
  is checked to be 64 hex characters and a SHA-256 hex digest is 64
  lowercase hex characters, so the length-mismatch throw cannot fire).
* `src/src/routes/auth.ts` — the `POST /webhooks/payzcore` handler and its
  four event handlers, with the Shopify Admin API (`ShopifyClient`, file
  `src/unnamed/part_001`) modelled as a stateful environment: orders keyed
  by id, a trace of issued API calls, and per-method failure-injection
  flags standing for thrown request errors.  A successful capture
  transaction makes the order financially `paid` — the external Shopify
  behaviour the handler's own duplicate check relies on.
* `src/src/routes/payment.ts` — the `GET /payment/:paymentId/status` poll
  endpoint and the `POST /payment/:paymentId/confirm` endpoint, with the
  outbound PayzCore query modelled as an `Option` (`none` = the request
  threw and the `catch` branch runs).
-/

/- ──────────────────────── Store (src/src/store.ts) ──────────────────────── -/

/-- `PaymentMapping` from `src/src/store.ts`.  Optional fields of the
TypeScript interface (`notice?`, `requiresTxid?`, `confirmEndpoint?`) are
`Option`s; `network`/`token`/`status` are kept as strings as in the JSON
stored in Redis. -/
structure PaymentMapping where
  shopDomain : String
  shopifyOrderId : Nat
  shopifyOrderName : String
  amount : String
  currency : String
  customerEmail : String
  network : String
  token : String
  payzCorePaymentId : String
  address : String
  expectedAmount : String
  qrCode : String
  expiresAt : String
  status : String
  createdAt : String
  notice : Option String
  requiresTxid : Option Bool
  confirmEndpoint : Option String
deriving Repr, DecidableEq

/-- One Redis value under a `shopify:payment:` key: the serialized mapping
plus the key's remaining time-to-live in seconds. -/
structure StoredMapping where
  mapping : PaymentMapping
  ttl : Int
deriving Repr, DecidableEq

/-- The Redis keyspace restricted to the payment-mapping keys, as an
association list with first-match lookup. -/
abbrev Store := List (String × StoredMapping)

/-- Redis `GET`. -/
def storeGet : Store → String → Option StoredMapping
  | [], _ => none
  | (k', v) :: rest, k => if k' = k then some v else storeGet rest k

/-- Redis `SET` (replaces the first binding of the key, inserts otherwise). -/
def storeSet : Store → String → StoredMapping → Store
  | [], k, v => [(k, v)]
  | (k', v') :: rest, k, v =>
      if k' = k then (k, v) :: rest else (k', v') :: storeSet rest k v

/-- `PAYMENT_PREFIX` from `src/src/store.ts`. -/
def PAYMENT_PREFIX : String := "shopify:payment:"

/-- The Redis key of a payment id. -/
def paymentKey (paymentId : String) : String := PAYMENT_PREFIX ++ paymentId

/-- `PAYMENT_TTL = 86400 * 7` from `src/src/store.ts`. -/
def PAYMENT_TTL : Int := 86400 * 7

/-- `getPaymentMapping` from `src/src/store.ts`. -/
def getPaymentMapping (s : Store) (paymentId : String) : Option PaymentMapping :=
  (storeGet s (paymentKey paymentId)).map (·.mapping)

/-- `savePaymentMapping` from `src/src/store.ts`: `SET … 'EX' PAYMENT_TTL`. -/
def savePaymentMapping (s : Store) (paymentId : String) (m : PaymentMapping) : Store :=
  storeSet s (paymentKey paymentId) ⟨m, PAYMENT_TTL⟩

/-- `updatePaymentMappingStatus` from `src/src/store.ts` (lines 134–144):
re-read the record, overwrite only `status`, and write it back with the
remaining TTL when that is positive, the 7-day default otherwise.  A no-op
when the key is absent. -/
def updatePaymentMappingStatus (s : Store) (paymentId status : String) : Store :=
  match storeGet s (paymentKey paymentId) with
  | none => s
  | some e =>
      let expiry := if e.ttl > 0 then e.ttl else PAYMENT_TTL
      storeSet s (paymentKey paymentId) ⟨{ e.mapping with status := status }, expiry⟩

/- ── Store lemmas ── -/

theorem storeGet_storeSet_same (s : Store) (k : String) (v : StoredMapping) :
    storeGet (storeSet s k v) k = some v := by
  induction s with
  | nil => simp [storeGet, storeSet]
  | cons hd tl ih =>
      by_cases h : hd.1 = k
      · simp [storeGet, storeSet, h]
      · simp [storeGet, storeSet, h, ih]

theorem storeGet_storeSet_other (s : Store) (k k' : String) (v : StoredMapping)
    (hne : k' ≠ k) : storeGet (storeSet s k v) k' = storeGet s k' := by
  induction s with
  | nil => simp [storeGet, storeSet, Ne.symm hne]
  | cons hd tl ih =>
      by_cases h : hd.1 = k
      · subst h
        simp [storeGet, storeSet, Ne.symm hne]
      · simp [storeGet, storeSet, h, ih]

/-- When the key is absent, `updatePaymentMappingStatus` leaves the store
untouched. -/
theorem updateStatus_absent (s : Store) (pid st : String)
    (h : storeGet s (paymentKey pid) = none) :
    updatePaymentMappingStatus s pid st = s := by
  simp [updatePaymentMappingStatus, h]

/-- When the key is present, `updatePaymentMappingStatus` rewrites exactly the
`status` field and refreshes the TTL as the source does. -/
theorem updateStatus_present (s : Store) (pid st : String) (e : StoredMapping)
    (h : storeGet s (paymentKey pid) = some e) :
    storeGet (updatePaymentMappingStatus s pid st) (paymentKey pid)
      = some ⟨{ e.mapping with status := st }, if e.ttl > 0 then e.ttl else PAYMENT_TTL⟩ := by
  simp [updatePaymentMappingStatus, h, storeGet_storeSet_same]

/-- `updatePaymentMappingStatus` touches no other key. -/
theorem updateStatus_frame (s : Store) (pid st k : String)
    (hk : k ≠ paymentKey pid) :
    storeGet (updatePaymentMappingStatus s pid st) k = storeGet s k := by
  cases h : storeGet s (paymentKey pid) with
  | none => simp [updatePaymentMappingStatus, h]
  | some e => simp [updatePaymentMappingStatus, h, storeGet_storeSet_other _ _ _ _ hk]

/-- The mapping view of `updateStatus_present`. -/
theorem getPaymentMapping_update (s : Store) (pid st : String) (m : PaymentMapping)
    (h : getPaymentMapping s pid = some m) :
    getPaymentMapping (updatePaymentMappingStatus s pid st) pid
      = some { m with status := st } := by
  cases he : storeGet s (paymentKey pid) with
  | none => simp [getPaymentMapping, he] at h
  | some e =>
      have hm : e.mapping = m := by
        simpa [getPaymentMapping, he] using h
      simp [getPaymentMapping, updateStatus_present s pid st e he, hm]

/- ───────────── Shopify Admin API model (src/unnamed/part_001) ───────────── -/

/-- `ShopifyOrder` from the Shopify client (`src/unnamed/part_001`).
`cancelled_at` and `note` are nullable in the REST payload. -/
structure ShopifyOrder where
  id : Nat
  name : String
  email : String
  financial_status : String
  total_price : String
  currency : String
  created_at : String
  cancelled_at : Option String
  note : Option String
  tags : String
deriving Repr, DecidableEq

/-- The commerce side's order book, keyed by order id. -/
abbrev Orders := List (Nat × ShopifyOrder)

def ordersGet : Orders → Nat → Option ShopifyOrder
  | [], _ => none
  | (k', v) :: rest, k => if k' = k then some v else ordersGet rest k

def ordersSet : Orders → Nat → ShopifyOrder → Orders
  | [], k, v => [(k, v)]
  | (k', v') :: rest, k, v =>
      if k' = k then (k, v) :: rest else (k', v') :: ordersSet rest k v

/-- One request issued by `ShopifyClient` (`src/unnamed/part_001`), as seen on
the wire: `getOrder` is `GET /orders/:id.json`, `createTransaction` is the
`POST /orders/:id/transactions.json` of `markOrderAsPaid`, `putOrderNote` and
`putOrderTags` are the two `PUT /orders/:id.json` bodies, `cancelOrder` is
`POST /orders/:id/cancel.json`. -/
inductive ShopifyCall where
  | getOrder (orderId : Nat)
  | createTransaction (orderId : Nat) (kind : String) (amount : String)
  | putOrderNote (orderId : Nat) (note : String)
  | putOrderTags (orderId : Nat) (tags : String)
  | cancelOrder (orderId : Nat) (reason : String)
deriving Repr, DecidableEq

/-- Failure injection for the Shopify Admin API: a `true` flag makes every
request of that method fail (`response.ok` false or a transport error), which
the client surfaces as a thrown `Error`. -/
structure ShopifyFlags where
  failGetOrder : Bool
  failMarkPaid : Bool
  failAddNote : Bool
  failAddTags : Bool
  failCancel : Bool
deriving Repr, DecidableEq

/-- All requests succeed. -/
def allOk : ShopifyFlags := ⟨false, false, false, false, false⟩

/-- The mutable commerce-side state threaded through a handler run: the order
book and the trace of issued Shopify API calls. -/
structure SEff where
  orders : Orders
  calls : List ShopifyCall
deriving Repr, DecidableEq

/-- Outcome of one `ShopifyClient` method: the state after the request (the
call is traced even when it throws) and either a value or a thrown error. -/
structure OpResult (α : Type) where
  st : SEff
  out : Except Unit α
deriving Repr

/-- `ShopifyClient.getOrder`.  A missing order is a 4xx from Shopify, which
`request` turns into a thrown `Error`. -/
def shopifyGetOrder (f : ShopifyFlags) (orderId : Nat) (s : SEff) :
    OpResult ShopifyOrder :=
  let s' : SEff := { s with calls := s.calls ++ [.getOrder orderId] }
  if f.failGetOrder then ⟨s', .error ()⟩
  else
    match ordersGet s.orders orderId with
    | some o => ⟨s', .ok o⟩
    | none => ⟨s', .error ()⟩

/-- `ShopifyClient.markOrderAsPaid`: POSTs a successful `capture` transaction.
On success the order's own financial state becomes `paid` — the documented
Shopify semantics of recording a successful capture transaction, which the
webhook handler's duplicate check (`order.financial_status === 'paid'`)
relies on. -/
def shopifyMarkOrderAsPaid (f : ShopifyFlags) (orderId : Nat) (amount : String)
    (s : SEff) : OpResult Unit :=
  let s' : SEff := { s with calls := s.calls ++ [.createTransaction orderId "capture" amount] }
  if f.failMarkPaid then ⟨s', .error ()⟩
  else
    match ordersGet s'.orders orderId with
    | some o => ⟨{ s' with orders := ordersSet s'.orders orderId { o with financial_status := "paid" } }, .ok ()⟩
    | none => ⟨s', .error ()⟩

/-- `ShopifyClient.addOrderNote`: `PUT /orders/:id.json` with a `note` field,
replacing the order's note. -/
def shopifyAddOrderNote (f : ShopifyFlags) (orderId : Nat) (note : String)
    (s : SEff) : OpResult Unit :=
  let s' : SEff := { s with calls := s.calls ++ [.putOrderNote orderId note] }
  if f.failAddNote then ⟨s', .error ()⟩
  else
    match ordersGet s'.orders orderId with
    | some o => ⟨{ s' with orders := ordersSet s'.orders orderId { o with note := some note } }, .ok ()⟩
    | none => ⟨s', .error ()⟩

/-- First-occurrence de-duplication, the order `[...new Set(xs)]` keeps. -/
def dedupKeepFirst : List String → List String → List String
  | [], _ => []
  | x :: xs, seen =>
      if x ∈ seen then dedupKeepFirst xs seen else x :: dedupKeepFirst xs (x :: seen)

/-- `ShopifyClient.addOrderTags`: reads the order (`this.getOrder`), merges the
comma-separated tag lists without duplicates, and PUTs the result back. -/
def shopifyAddOrderTags (f : ShopifyFlags) (orderId : Nat) (tags : String)
    (s : SEff) : OpResult Unit :=
  let r := shopifyGetOrder f orderId s
  match r.out with
  | .error _ => ⟨r.st, .error ()⟩
  | .ok o =>
      let currentTags := if o.tags = "" then [] else o.tags.splitOn ", "
      let newTags := tags.splitOn ", "
      let mergedTags := dedupKeepFirst (currentTags ++ newTags) []
      let joined := String.intercalate ", " mergedTags
      let s' : SEff := { r.st with calls := r.st.calls ++ [.putOrderTags orderId joined] }
      if f.failAddTags then ⟨s', .error ()⟩
      else
        match ordersGet s'.orders orderId with
        | some o' => ⟨{ s' with orders := ordersSet s'.orders orderId { o' with tags := joined } }, .ok ()⟩
        | none => ⟨s', .error ()⟩

/-- `ShopifyClient.cancelOrder`: `POST /orders/:id/cancel.json`.  On success
Shopify stamps the order's `cancelled_at`. -/
def shopifyCancelOrder (f : ShopifyFlags) (orderId : Nat) (reason : String)
    (s : SEff) : OpResult Unit :=
  let s' : SEff := { s with calls := s.calls ++ [.cancelOrder orderId reason] }
  if f.failCancel then ⟨s', .error ()⟩
  else
    match ordersGet s'.orders orderId with
    | some o => ⟨{ s' with orders := ordersSet s'.orders orderId { o with cancelled_at := some "cancelled" } }, .ok ()⟩
    | none => ⟨s', .error ()⟩

/- ───────────── Webhook handler (src/src/routes/auth.ts, webhook part) ───────────── -/

/-- `WebhookPayload` from `src/src/routes/auth.ts`.  Nullable fields are
`Option`s; the opaque `metadata` record is unused by the handler and omitted. -/
structure WebhookPayload where
  event : String
  payment_id : String
  external_ref : String
  external_order_id : Option String
  network : String
  address : String
  expected_amount : String
  paid_amount : String
  tx_hash : Option String
  status : String
  paid_at : Option String
  timestamp : String
deriving Repr, DecidableEq

/-- JavaScript truthiness of a nullable string (`null`, `undefined` and `""`
are falsy). -/
def jsTruthy : Option String → Bool
  | some s => s ≠ ""
  | none => false

/-- JavaScript template interpolation of a nullable string (`null` prints as
`"null"`). -/
def jsStr : Option String → String
  | some s => s
  | none => "null"

/-- JavaScript `a || b` on strings (empty string falls through). -/
def jsOrStr (a b : String) : String := if a = "" then b else a

/-- JavaScript `a || b` with a nullable left operand. -/
def jsOr (a : Option String) (b : String) : String :=
  match a with
  | some s => if s = "" then b else s
  | none => b

/-- `NETWORK_EXPLORER_TX` from `src/src/services/payzcore.ts`, with the
JavaScript record lookup on an unknown key returning `undefined` (`none`). -/
def NETWORK_EXPLORER_TX (network : String) : Option String :=
  if network = "TRC20" then some "https://tronscan.org/#/transaction/"
  else if network = "BEP20" then some "https://bscscan.com/tx/"
  else if network = "ERC20" then some "https://etherscan.io/tx/"
  else if network = "POLYGON" then some "https://polygonscan.com/tx/"
  else if network = "ARBITRUM" then some "https://arbiscan.io/tx/"
  else none

/-- `handlePaymentSuccess` from `src/src/routes/auth.ts` (payment.completed /
payment.overpaid): check the order's financial state (a failed check is
caught and processing proceeds), skip everything when already `paid`,
otherwise mark as paid, add the audit note and tag the order.  Errors from
the three mutating calls propagate to the router's catch. -/
def handlePaymentSuccess (f : ShopifyFlags) (mapping : PaymentMapping)
    (p : WebhookPayload) (s : SEff) : OpResult Unit :=
  let tokenLabel := jsOrStr mapping.token "USDT"
  let r1 := shopifyGetOrder f mapping.shopifyOrderId s
  let alreadyPaid : Bool :=
    match r1.out with
    | .ok o => o.financial_status = "paid"
    | .error _ => false
  if alreadyPaid then ⟨r1.st, .ok ()⟩
  else
    let r2 := shopifyMarkOrderAsPaid f mapping.shopifyOrderId
      (jsOrStr p.paid_amount mapping.amount) r1.st
    match r2.out with
    | .error _ => ⟨r2.st, .error ()⟩
    | .ok _ =>
        let explorerUrl :=
          match NETWORK_EXPLORER_TX p.network with
          | some base => base ++ jsStr p.tx_hash
          | none => jsStr p.tx_hash
        let note := String.intercalate "\n" (List.filterMap id
          [ some "Crypto payment received",
            some ("Amount: " ++ p.paid_amount ++ " " ++ tokenLabel ++ " (" ++ p.network ++ ")"),
            some ("Address: " ++ p.address),
            if jsTruthy p.tx_hash then some ("TX: " ++ explorerUrl) else none,
            some ("Payment ID: " ++ p.payment_id),
            some ("Detected at: " ++ jsOr p.paid_at p.timestamp),
            if p.event = "payment.overpaid" then
              some ("Note: Customer overpaid (expected " ++ p.expected_amount ++ " " ++ tokenLabel ++ ")")
            else none ])
        let r3 := shopifyAddOrderNote f mapping.shopifyOrderId note r2.st
        match r3.out with
        | .error _ => ⟨r3.st, .error ()⟩
        | .ok _ =>
            let tokenTag := tokenLabel.toLower
            let tags :=
              if p.event = "payment.overpaid" then
                "crypto-paid, payzcore, " ++ tokenTag ++ ", overpaid"
              else
                "crypto-paid, payzcore, " ++ tokenTag
            let r4 := shopifyAddOrderTags f mapping.shopifyOrderId tags r3.st
            match r4.out with
            | .error _ => ⟨r4.st, .error ()⟩
            | .ok _ => ⟨r4.st, .ok ()⟩

/-- `handlePaymentExpired` from `src/src/routes/auth.ts`.  The whole body sits
in a `try`/`catch` that only logs, so this handler never throws to the
router: any Shopify failure is swallowed. -/
def handlePaymentExpired (f : ShopifyFlags) (mapping : PaymentMapping)
    (p : WebhookPayload) (s : SEff) : OpResult Unit :=
  let r1 := shopifyGetOrder f mapping.shopifyOrderId s
  match r1.out with
  | .error _ => ⟨r1.st, .ok ()⟩
  | .ok o =>
      if o.cancelled_at.isSome ∨ o.financial_status = "paid" then ⟨r1.st, .ok ()⟩
      else
        let expiredToken := jsOrStr mapping.token "USDT"
        let reason := "Crypto payment expired. The customer did not send " ++ expiredToken
          ++ " within the payment window. Payment ID: " ++ p.payment_id
        let r2 := shopifyCancelOrder f mapping.shopifyOrderId reason r1.st
        match r2.out with
        | .error _ => ⟨r2.st, .ok ()⟩
        | .ok _ =>
            let r3 := shopifyAddOrderTags f mapping.shopifyOrderId "crypto-expired, payzcore" r2.st
            ⟨r3.st, .ok ()⟩

/-- `handlePaymentCancelled` from `src/src/routes/auth.ts`: same shape as the
expiry handler with different texts; its `try`/`catch` also swallows every
failure. -/
def handlePaymentCancelled (f : ShopifyFlags) (mapping : PaymentMapping)
    (p : WebhookPayload) (s : SEff) : OpResult Unit :=
  let r1 := shopifyGetOrder f mapping.shopifyOrderId s
  match r1.out with
  | .error _ => ⟨r1.st, .ok ()⟩
  | .ok o =>
      if o.cancelled_at.isSome ∨ o.financial_status = "paid" then ⟨r1.st, .ok ()⟩
      else
        let reason := "Crypto payment cancelled by the merchant. Payment ID: " ++ p.payment_id
        let r2 := shopifyCancelOrder f mapping.shopifyOrderId reason r1.st
        match r2.out with
        | .error _ => ⟨r2.st, .ok ()⟩
        | .ok _ =>
            let r3 := shopifyAddOrderTags f mapping.shopifyOrderId "crypto-cancelled, payzcore" r2.st
            ⟨r3.st, .ok ()⟩

/-- The note text of `handlePaymentPartial` (`src/src/routes/auth.ts`). -/
def partialNote (mapping : PaymentMapping) (p : WebhookPayload) : String :=
  let tokenLabel := jsOrStr mapping.token "USDT"
  let txLink : Option String :=
    if jsTruthy p.tx_hash then
      some (match NETWORK_EXPLORER_TX p.network with
        | some base => base ++ jsStr p.tx_hash
        | none => jsStr p.tx_hash)
    else none
  String.intercalate "\n" (List.filterMap id
    [ some "Partial crypto payment detected",
      some ("Received: " ++ p.paid_amount ++ " " ++ tokenLabel
        ++ " (expected: " ++ p.expected_amount ++ " " ++ tokenLabel ++ ")"),
      some ("Network: " ++ p.network),
      some ("Address: " ++ p.address),
      txLink.map (fun l => "TX: " ++ l),
      some ("Payment ID: " ++ p.payment_id),
      some "The payment window is still active. Customer may send the remaining amount." ])

/-- `handlePaymentPartial` from `src/src/routes/auth.ts` (payment.partial):
always adds one note and one tag set; the `try`/`catch` swallows failures.
There is no per-amount bookkeeping — the note is attempted on every
payment.partial delivery. -/
def handlePaymentPartial (f : ShopifyFlags) (mapping : PaymentMapping)
    (p : WebhookPayload) (s : SEff) : OpResult Unit :=
  let r1 := shopifyAddOrderNote f mapping.shopifyOrderId (partialNote mapping p) s
  match r1.out with
  | .error _ => ⟨r1.st, .ok ()⟩
  | .ok _ =>
      let r2 := shopifyAddOrderTags f mapping.shopifyOrderId "crypto-partial, payzcore" r1.st
      ⟨r2.st, .ok ()⟩

/-- `ShopData` from `src/src/store.ts`. -/
structure ShopData where
  accessToken : String
  scope : String
  installedAt : String
deriving Repr, DecidableEq

/-- The shop-token keyspace (`shopify:shop:` keys), keyed by shop domain. -/
abbrev Shops := List (String × ShopData)

/-- `getShop` from `src/src/store.ts`. -/
def getShop : Shops → String → Option ShopData
  | [], _ => none
  | (k', v) :: rest, k => if k' = k then some v else getShop rest k

/-- The response and resulting state of one `POST /webhooks/payzcore`
processing run (after the signature middleware has accepted the request). -/
structure WebhookResult where
  httpStatus : Nat
  received : Bool
  processed : Bool
  reason : Option String
  store : Store
  world : SEff
deriving Repr, DecidableEq

/-- The `switch (payload.event)` of the webhook route: the two success events
share one handler, unknown events are logged no-ops. -/
def dispatchWebhookEvent (f : ShopifyFlags) (mapping : PaymentMapping)
    (p : WebhookPayload) (s : SEff) : OpResult Unit :=
  if p.event = "payment.completed" ∨ p.event = "payment.overpaid" then
    handlePaymentSuccess f mapping p s
  else if p.event = "payment.expired" then
    handlePaymentExpired f mapping p s
  else if p.event = "payment.cancelled" then
    handlePaymentCancelled f mapping p s
  else if p.event = "payment.partial" then
    handlePaymentPartial f mapping p s
  else ⟨s, .ok ()⟩

/-- The `POST /webhooks/payzcore` route body from `src/src/routes/auth.ts`
(lines 229–292): look the mapping up (acknowledge with 200 when absent),
persist the pushed `status` unconditionally, look the shop up (acknowledge
with 200 when absent), dispatch on the event name, answer 200
`processed:true` when the handler returns and 500 `processing_error` when
it throws. -/
def processWebhook (f : ShopifyFlags) (store : Store) (shops : Shops)
    (orders : Orders) (p : WebhookPayload) : WebhookResult :=
  match getPaymentMapping store p.payment_id with
  | none => ⟨200, true, false, some "no_mapping", store, ⟨orders, []⟩⟩
  | some mapping =>
      let store1 := updatePaymentMappingStatus store p.payment_id p.status
      match getShop shops mapping.shopDomain with
      | none => ⟨200, true, false, some "shop_not_found", store1, ⟨orders, []⟩⟩
      | some _ =>
          let r := dispatchWebhookEvent f mapping p ⟨orders, []⟩
          match r.out with
          | .ok _ => ⟨200, true, true, none, store1, r.st⟩
          | .error _ => ⟨500, true, false, some "processing_error", store1, r.st⟩

/-- Sequential redelivery: process a list of pushes one after another,
threading the store and order book and concatenating the call traces. -/
def processWebhookSeq (f : ShopifyFlags) (store : Store) (shops : Shops)
    (orders : Orders) : List WebhookPayload → Store × Orders × List ShopifyCall
  | [] => (store, orders, [])
  | p :: rest =>
      let r := processWebhook f store shops orders p
      let rec' := processWebhookSeq f r.store shops r.world.orders rest
      (rec'.1, rec'.2.1, r.world.calls ++ rec'.2.2)

/-- Whether a call is the mark-as-paid capture transaction. -/
def isCaptureCall : ShopifyCall → Bool
  | .createTransaction _ _ _ => true
  | _ => false

/-- Whether a call writes an order note. -/
def isNoteCall : ShopifyCall → Bool
  | .putOrderNote _ _ => true
  | _ => false

/-- Number of capture transactions in a trace. -/
def countCapture (calls : List ShopifyCall) : Nat := calls.countP isCaptureCall

/-- Number of order-note writes in a trace. -/
def countNote (calls : List ShopifyCall) : Nat := calls.countP isNoteCall

/- ───────────── Poll status endpoint (src/src/routes/payment.ts) ───────────── -/

/-- One entry of `payment.transactions` in `GetPaymentResponse`
(`src/src/services/payzcore.ts`). -/
structure PollTransaction where
  tx_hash : String
  amount : String
  sender : String
  confirmed : Bool
deriving Repr, DecidableEq

/-- The `payment` object of a successful PayzCore `GET /v1/payments/:id`
(`GetPaymentResponse`, fields the status route reads). -/
structure PollUpstream where
  status : String
  expected_amount : String
  paid_amount : String
  tx_hash : Option String
  transactions : List PollTransaction
deriving Repr, DecidableEq

/-- The JSON answer and resulting state of `GET /payment/:paymentId/status`. -/
structure PollResult where
  httpStatus : Nat
  status : String
  paid_amount : String
  expected_amount : String
  tx_hash : Option String
  transactions : List PollTransaction
  is_terminal : Bool
  is_paid : Bool
  store : Store
  calls : List ShopifyCall
deriving Repr, DecidableEq

/-- The terminal-status list of `src/src/routes/payment.ts` line 420. -/
def TERMINAL_STATUSES : List String := ["paid", "overpaid", "expired", "cancelled"]

/-- The `GET /payment/:paymentId/status` route from `src/src/routes/payment.ts`
(lines 403–446).  `upstream` is the outcome of `payzcore.getPayment`:
`some payment` when the request succeeded, `none` when it threw and the
`catch` branch answers with the cached mapping.  The route touches no
Shopify API, so its call trace is empty in every branch. -/
def processStatusPoll (store : Store) (paymentId : String)
    (upstream : Option PollUpstream) : PollResult :=
  match getPaymentMapping store paymentId with
  | none => ⟨404, "", "", "", none, [], false, false, store, []⟩
  | some mapping =>
      match upstream with
      | some payment =>
          let store1 := updatePaymentMappingStatus store paymentId payment.status
          ⟨200, payment.status, payment.paid_amount, payment.expected_amount,
            payment.tx_hash, payment.transactions,
            TERMINAL_STATUSES.contains payment.status,
            payment.status = "paid" ∨ payment.status = "overpaid",
            store1, []⟩
      | none =>
          ⟨200, mapping.status, "0", mapping.expectedAmount, none, [],
            false, false, store, []⟩

/- ───────────── Confirm endpoint (src/src/routes/payment.ts) ───────────── -/

/-- The code points `String.prototype.trim` strips: ECMAScript WhiteSpace
(TAB, VT, FF, SP, NBSP, ZWNBSP/BOM and the Unicode space separators Zs)
together with the LineTerminators (LF, CR, LS, PS). -/
def isJsWhitespace (c : Char) : Bool :=
  c = ' ' ∨ c = '\t' ∨ c = '\n' ∨ c = '\r' ∨ c = '\u000B' ∨ c = '\u000C' ∨
  c = '\u00A0' ∨ c = '\uFEFF' ∨ c = '\u1680' ∨
  ( '\u2000' ≤ c ∧ c ≤ '\u200A') ∨
  c = '\u2028' ∨ c = '\u2029' ∨ c = '\u202F' ∨ c = '\u205F' ∨ c = '\u3000'

/-- `txHash.trim()`: strip leading and trailing whitespace. -/
def jsTrim (s : String) : String :=
  ⟨((s.data.dropWhile isJsWhitespace).reverse.dropWhile isJsWhitespace).reverse⟩

/-- `replace(/^0x/, '')`: strip one leading literal `0x`. -/
def strip0x (s : String) : String :=
  match s.data with
  | '0' :: 'x' :: rest => ⟨rest⟩
  | _ => s

/-- `txHash.trim().replace(/^0x/, '')` from the confirm route. -/
def cleanTxHash (txHash : String) : String :=
  strip0x (jsTrim txHash)

/-- One character of `[a-fA-F0-9]`. -/
def isHexChar (c : Char) : Bool :=
  ( '0' ≤ c ∧ c ≤ '9') ∨ ( 'a' ≤ c ∧ c ≤ 'f') ∨ ( 'A' ≤ c ∧ c ≤ 'F')

/-- The `/^[a-fA-F0-9]{10,128}$/` test of the confirm route. -/
def isValidTxHashFormat (s : String) : Bool :=
  10 ≤ s.length ∧ s.length ≤ 128 ∧ s.data.all isHexChar

/-- Outcome of `POST /payment/:paymentId/confirm`. -/
inductive ConfirmOutcome where
  | notFound
  | badRequest (error : String)
  | forwarded (endpoint : String) (txHash : String)
deriving Repr, DecidableEq

/-- The `POST /payment/:paymentId/confirm` route from
`src/src/routes/payment.ts` (lines 455–489): 404 without a mapping, 400
unless `requiresTxid` and `confirmEndpoint` are both truthy, 400 on a
missing/empty `tx_hash`, 400 when the trimmed hash (with an optional `0x`
stripped) is not 10–128 hex characters, otherwise the trimmed hash is
forwarded to the record's PayzCore confirm endpoint
(`payzcore.confirmPayment(mapping.confirmEndpoint, txHash.trim())`). -/
def processConfirmSubmission (store : Store) (paymentId : String)
    (txHashField : Option String) : ConfirmOutcome :=
  match getPaymentMapping store paymentId with
  | none => .notFound
  | some mapping =>
      let requiresTruthy : Bool := match mapping.requiresTxid with
        | some b => b
        | none => false
      let endpointTruthy : Bool := jsTruthy mapping.confirmEndpoint
      if ¬ (requiresTruthy ∧ endpointTruthy) then
        .badRequest "Transaction hash submission is not required for this payment"
      else
        match txHashField with
        | none => .badRequest "Missing or invalid tx_hash"
        | some txHash =>
            if txHash = "" ∨ (jsTrim txHash).length = 0 then
              .badRequest "Missing or invalid tx_hash"
            else if ¬ isValidTxHashFormat (cleanTxHash txHash) then
              .badRequest "Invalid transaction hash format"
            else
              .forwarded (jsStr mapping.confirmEndpoint) (jsTrim txHash)

/- ───────── Signature verification (src/src/middleware/verify-payzcore.ts) ───────── -/

/-- Character-wise lowercasing; `hexLower a = hexLower b` is equality of the
hex-decoded bytes of two same-length hex strings, the comparison
`timingSafeEqual` performs. -/
def hexLower (s : String) : String := ⟨s.data.map Char.toLower⟩

/-- The `/^[a-f0-9]{64}$/i` signature-format test. -/
def isHex64 (s : String) : Bool := s.length = 64 ∧ s.data.all isHexChar

/-- The three pieces of the request the middleware reads: the
`X-PayzCore-Signature` header, the `X-PayzCore-Timestamp` header, and the
raw body captured by the route. -/
structure VerifyRequest where
  signature : Option String
  timestamp : Option String
  rawBody : Option String
deriving Repr, DecidableEq

/-- What the middleware does with the request: pass it on (`next()`), or end
it with a 401 or 400 JSON error. -/
inductive VerifyOutcome where
  | ok
  | unauthorized (error : String)
  | badRequest (error : String)
deriving Repr, DecidableEq

/-- `verifyPayzCoreWebhook` from `src/src/middleware/verify-payzcore.ts`
(lines 22–87).  `hmacSha256Hex secret message` stands for
`createHmac('sha256', secret).update(message).digest('hex')` and
`parseTimestamp` for `new Date(ts).getTime()` (`none` = `NaN`); `now` is
`Date.now()` in milliseconds.  `timingSafeEqual` over the two hex-decoded
32-byte buffers is hex-decode equality, i.e. case-insensitive equality of
the two 64-character hex strings (the supplied signature passed the
`/^[a-f0-9]{64}$/i` test and a SHA-256 hex digest is 64 lowercase hex
characters, so the lengths agree and the throwing branch cannot fire). -/
def verifyPayzCoreWebhook (hmacSha256Hex : String → String → String)
    (parseTimestamp : String → Option Int) (now : Int)
    (webhookSecret : String) (req : VerifyRequest) : VerifyOutcome :=
  match req.signature with
  | none => .unauthorized "Missing signature header"
  | some signature =>
      match req.timestamp with
      | none => .unauthorized "Missing timestamp header"
      | some timestamp =>
          match parseTimestamp timestamp with
          | none => .unauthorized "Timestamp validation failed"
          | some ts =>
              if (now - ts).natAbs > 5 * 60 * 1000 then
                .unauthorized "Timestamp validation failed"
              else
                match req.rawBody with
                | none => .badRequest "Missing request body"
                | some rawBody =>
                    let message := timestamp ++ "." ++ rawBody
                    let expected := hmacSha256Hex webhookSecret message
                    if ¬ isHex64 signature then
                      .unauthorized "Invalid signature"
                    else if hexLower signature = hexLower expected then
                      .ok
                    else
                      .unauthorized "Invalid signature"

/- ──────────────────────── Environment lemmas ──────────────────────── -/

theorem ordersGet_ordersSet_same (os : Orders) (k : Nat) (v : ShopifyOrder) :
    ordersGet (ordersSet os k v) k = some v := by
  induction os with
  | nil => simp [ordersGet, ordersSet]
  | cons hd tl ih =>
      by_cases h : hd.1 = k
      · simp [ordersGet, ordersSet, h]
      · simp [ordersGet, ordersSet, h, ih]

theorem ordersGet_ordersSet_other (os : Orders) (k k' : Nat) (v : ShopifyOrder)
    (hne : k' ≠ k) : ordersGet (ordersSet os k v) k' = ordersGet os k' := by
  induction os with
  | nil => simp [ordersGet, ordersSet, Ne.symm hne]
  | cons hd tl ih =>
      by_cases h : hd.1 = k
      · subst h
        simp [ordersGet, ordersSet, Ne.symm hne]
      · simp [ordersGet, ordersSet, h, ih]

theorem shopifyGetOrder_ok (f : ShopifyFlags) (oid : Nat) (s : SEff) (o : ShopifyOrder)
    (hf : f.failGetOrder = false) (h : ordersGet s.orders oid = some o) :
    shopifyGetOrder f oid s = ⟨{ s with calls := s.calls ++ [.getOrder oid] }, .ok o⟩ := by
  simp [shopifyGetOrder, hf, h]

theorem shopifyMarkOrderAsPaid_ok (f : ShopifyFlags) (oid : Nat) (amt : String)
    (s : SEff) (o : ShopifyOrder)
    (hf : f.failMarkPaid = false) (h : ordersGet s.orders oid = some o) :
    shopifyMarkOrderAsPaid f oid amt s
      = ⟨⟨ordersSet s.orders oid { o with financial_status := "paid" },
          s.calls ++ [.createTransaction oid "capture" amt]⟩, .ok ()⟩ := by
  simp [shopifyMarkOrderAsPaid, hf, h]

theorem shopifyMarkOrderAsPaid_fail (f : ShopifyFlags) (oid : Nat) (amt : String)
    (s : SEff) (hf : f.failMarkPaid = true) :
    shopifyMarkOrderAsPaid f oid amt s
      = ⟨{ s with calls := s.calls ++ [.createTransaction oid "capture" amt] }, .error ()⟩ := by
  simp [shopifyMarkOrderAsPaid, hf]

theorem shopifyAddOrderNote_ok (f : ShopifyFlags) (oid : Nat) (note : String)
    (s : SEff) (o : ShopifyOrder)
    (hf : f.failAddNote = false) (h : ordersGet s.orders oid = some o) :
    shopifyAddOrderNote f oid note s
      = ⟨⟨ordersSet s.orders oid { o with note := some note },
          s.calls ++ [.putOrderNote oid note]⟩, .ok ()⟩ := by
  simp [shopifyAddOrderNote, hf, h]

theorem shopifyCancelOrder_fail (f : ShopifyFlags) (oid : Nat) (reason : String)
    (s : SEff) (hf : f.failCancel = true) :
    shopifyCancelOrder f oid reason s
      = ⟨{ s with calls := s.calls ++ [.cancelOrder oid reason] }, .error ()⟩ := by
  simp [shopifyCancelOrder, hf]

theorem shopifyAddOrderTags_ok (f : ShopifyFlags) (oid : Nat) (tags : String)
    (s : SEff) (o : ShopifyOrder)
    (hg : f.failGetOrder = false) (ht : f.failAddTags = false)
    (h : ordersGet s.orders oid = some o) :
    ∃ joined : String, shopifyAddOrderTags f oid tags s
      = ⟨⟨ordersSet s.orders oid { o with tags := joined },
          s.calls ++ [.getOrder oid, .putOrderTags oid joined]⟩, .ok ()⟩ := by
  refine ⟨String.intercalate ", "
    (dedupKeepFirst ((if o.tags = "" then [] else o.tags.splitOn ", ") ++ tags.splitOn ", ") []), ?_⟩
  simp [shopifyAddOrderTags, shopifyGetOrder, hg, ht, h]

/-- Happy path of the success handler on an order that is not yet paid:
exactly one capture transaction is issued and afterwards the order's own
financial state is `paid`. -/
theorem handleSuccess_allOk_unpaid (mapping : PaymentMapping) (p : WebhookPayload)
    (s : SEff) (o : ShopifyOrder)
    (h : ordersGet s.orders mapping.shopifyOrderId = some o)
    (hnp : o.financial_status ≠ "paid") :
    (handlePaymentSuccess allOk mapping p s).out = .ok ()
    ∧ countCapture (handlePaymentSuccess allOk mapping p s).st.calls
        = countCapture s.calls + 1
    ∧ ∃ o', ordersGet (handlePaymentSuccess allOk mapping p s).st.orders
          mapping.shopifyOrderId = some o' ∧ o'.financial_status = "paid" := by
  simp only [handlePaymentSuccess, shopifyGetOrder, shopifyMarkOrderAsPaid,
    shopifyAddOrderNote, shopifyAddOrderTags, allOk, h, hnp,
    ordersGet_ordersSet_same, Bool.false_eq_true, if_false, ite_false]
  simp [hnp, ordersGet_ordersSet_same, countCapture, isCaptureCall,
    List.countP_append, List.countP_cons, List.countP_nil]

/-- Duplicate-delivery path of the success handler: when the order is already
financially `paid`, the handler only reads the order and issues no
mutation. -/
theorem handleSuccess_skip_paid (f : ShopifyFlags) (mapping : PaymentMapping)
    (p : WebhookPayload) (s : SEff) (o : ShopifyOrder)
    (hg : f.failGetOrder = false)
    (h : ordersGet s.orders mapping.shopifyOrderId = some o)
    (hp : o.financial_status = "paid") :
    handlePaymentSuccess f mapping p s
      = ⟨{ s with calls := s.calls ++ [.getOrder mapping.shopifyOrderId] }, .ok ()⟩ := by
  simp [handlePaymentSuccess, shopifyGetOrder, hg, h, hp]

/-- The store component of a webhook run: unchanged when no mapping exists,
otherwise the unconditional status write of line 246. -/
theorem processWebhook_store_absent (f : ShopifyFlags) (store : Store)
    (shops : Shops) (orders : Orders) (p : WebhookPayload)
    (h : getPaymentMapping store p.payment_id = none) :
    (processWebhook f store shops orders p).store = store := by
  simp [processWebhook, h]

theorem processWebhook_store_present (f : ShopifyFlags) (store : Store)
    (shops : Shops) (orders : Orders) (p : WebhookPayload) (m : PaymentMapping)
    (h : getPaymentMapping store p.payment_id = some m) :
    (processWebhook f store shops orders p).store
      = updatePaymentMappingStatus store p.payment_id p.status := by
  unfold processWebhook
  rw [h]
  cases hs : getShop shops m.shopDomain with
  | none => simp [hs]
  | some sd =>
      cases hr : (dispatchWebhookEvent f m p ⟨orders, []⟩).out with
      | ok a => simp [hs, hr]
      | error a => simp [hs, hr]

theorem countCapture_append (a b : List ShopifyCall) :
    countCapture (a ++ b) = countCapture a + countCapture b := by
  simp [countCapture, List.countP_append]

/-- First delivery of `payment.completed` against an order that is not yet
paid: one capture call, the order ends financially `paid`, and the stored
status is overwritten with the pushed one. -/
theorem processWebhook_completed_unpaid (store : Store) (shops : Shops)
    (orders : Orders) (p : WebhookPayload) (e : StoredMapping) (sd : ShopData)
    (o : ShopifyOrder)
    (hm : storeGet store (paymentKey p.payment_id) = some e)
    (hs : getShop shops e.mapping.shopDomain = some sd)
    (ho : ordersGet orders e.mapping.shopifyOrderId = some o)
    (hnp : o.financial_status ≠ "paid")
    (hev : p.event = "payment.completed") :
    countCapture (processWebhook allOk store shops orders p).world.calls = 1
    ∧ (∃ o', ordersGet (processWebhook allOk store shops orders p).world.orders
          e.mapping.shopifyOrderId = some o' ∧ o'.financial_status = "paid")
    ∧ storeGet (processWebhook allOk store shops orders p).store (paymentKey p.payment_id)
        = some ⟨{ e.mapping with status := p.status },
            if e.ttl > 0 then e.ttl else PAYMENT_TTL⟩ := by
  have hgm : getPaymentMapping store p.payment_id = some e.mapping := by
    simp [getPaymentMapping, hm]
  obtain ⟨hok, hcount, o', ho', hp'⟩ :=
    handleSuccess_allOk_unpaid e.mapping p ⟨orders, []⟩ o ho hnp
  have hre : processWebhook allOk store shops orders p
      = ⟨200, true, true, none, updatePaymentMappingStatus store p.payment_id p.status,
          (handlePaymentSuccess allOk e.mapping p ⟨orders, []⟩).st⟩ := by
    simp [processWebhook, hgm, hs, dispatchWebhookEvent, hev, hok]
  rw [hre]
  refine ⟨?_, ⟨o', ho', hp'⟩, ?_⟩
  · simpa [countCapture] using hcount
  · exact updateStatus_present store p.payment_id p.status e hm

/-- Redelivery of `payment.completed` once the order is already paid: the run
only reads the order back and persists the pushed status again. -/
theorem processWebhook_completed_paid (store : Store) (shops : Shops)
    (orders : Orders) (p : WebhookPayload) (e : StoredMapping) (sd : ShopData)
    (o : ShopifyOrder)
    (hm : storeGet store (paymentKey p.payment_id) = some e)
    (hs : getShop shops e.mapping.shopDomain = some sd)
    (ho : ordersGet orders e.mapping.shopifyOrderId = some o)
    (hp : o.financial_status = "paid")
    (hev : p.event = "payment.completed") :
    processWebhook allOk store shops orders p
      = ⟨200, true, true, none, updatePaymentMappingStatus store p.payment_id p.status,
          ⟨orders, [.getOrder e.mapping.shopifyOrderId]⟩⟩ := by
  have hgm : getPaymentMapping store p.payment_id = some e.mapping := by
    simp [getPaymentMapping, hm]
  have hsk := handleSuccess_skip_paid allOk e.mapping p ⟨orders, []⟩ o rfl ho hp
  simp [processWebhook, hgm, hs, dispatchWebhookEvent, hev, hsk]

/-- State in which the mapped order has already been captured: the mapping and
the shop token resolve, and the mapped order is financially paid. -/
def paidState (store : Store) (shops : Shops) (orders : Orders) (pid : String) : Prop :=
  ∃ e : StoredMapping, storeGet store (paymentKey pid) = some e
    ∧ (∃ sd, getShop shops e.mapping.shopDomain = some sd)
    ∧ (∃ o, ordersGet orders e.mapping.shopifyOrderId = some o ∧ o.financial_status = "paid")

/-- One more duplicate `payment.completed` delivery in a `paidState` issues no
capture call and preserves the `paidState`. -/
theorem processWebhook_paidState (store : Store) (shops : Shops) (orders : Orders)
    (p : WebhookPayload) (pid : String)
    (hpid : p.payment_id = pid) (hev : p.event = "payment.completed")
    (h : paidState store shops orders pid) :
    countCapture (processWebhook allOk store shops orders p).world.calls = 0
    ∧ paidState (processWebhook allOk store shops orders p).store shops
        (processWebhook allOk store shops orders p).world.orders pid := by
  obtain ⟨e, hm, ⟨sd, hs⟩, ⟨o, ho, hp⟩⟩ := h
  subst hpid
  have heq := processWebhook_completed_paid store shops orders p e sd o hm hs ho hp hev
  rw [heq]
  refine ⟨by simp [countCapture, isCaptureCall], ?_⟩
  refine ⟨⟨{ e.mapping with status := p.status }, if e.ttl > 0 then e.ttl else PAYMENT_TTL⟩,
    updateStatus_present _ _ _ _ hm, ⟨sd, hs⟩, ⟨o, ho, hp⟩⟩

/-- In a `paidState`, any further sequence of duplicate `payment.completed`
pushes issues no capture call at all. -/
theorem processWebhookSeq_paidState (shops : Shops) (pid : String) :
    ∀ (ps : List WebhookPayload) (store : Store) (orders : Orders),
      (∀ q ∈ ps, q.payment_id = pid ∧ q.event = "payment.completed") →
      paidState store shops orders pid →
      countCapture (processWebhookSeq allOk store shops orders ps).2.2 = 0 := by
  intro ps
  induction ps with
  | nil => intro store orders _ _; simp [processWebhookSeq, countCapture]
  | cons q rest ih =>
      intro store orders hall hinv
      obtain ⟨hq1, hq2⟩ := hall q (by simp)
      obtain ⟨hc0, hinv'⟩ := processWebhook_paidState store shops orders q pid hq1 hq2 hinv
      have hrest := ih (processWebhook allOk store shops orders q).store
        (processWebhook allOk store shops orders q).world.orders
        (fun q' hq' => hall q' (by simp [hq'])) hinv'
      simp only [processWebhookSeq, countCapture_append]
      omega

/-- C2: For every sequence of duplicate `payment.completed` pushes with the
same `payment_id` and `status=paid`, processed one after another through the
webhook handler against a mapped order that is not yet paid (with the shop
installed and every Shopify request succeeding), exactly one mark-as-paid
capture transaction call is issued to Shopify. -/
theorem c2_duplicate_pushes_one_capture (n : Nat) (hn : 1 ≤ n)
    (store : Store) (shops : Shops) (orders : Orders) (p : WebhookPayload)
    (e : StoredMapping) (sd : ShopData) (o : ShopifyOrder)
    (hm : storeGet store (paymentKey p.payment_id) = some e)
    (hs : getShop shops e.mapping.shopDomain = some sd)
    (ho : ordersGet orders e.mapping.shopifyOrderId = some o)
    (hnp : o.financial_status ≠ "paid")
    (hev : p.event = "payment.completed") (hst : p.status = "paid") :
    countCapture (processWebhookSeq allOk store shops orders (List.replicate n p)).2.2
      = 1 := by
  obtain ⟨k, rfl⟩ : ∃ k, n = k + 1 := ⟨n - 1, (Nat.succ_pred_eq_of_pos hn).symm⟩
  rw [List.replicate_succ]
  obtain ⟨hc1, ⟨o', ho', hp'⟩, hstore⟩ :=
    processWebhook_completed_unpaid store shops orders p e sd o hm hs ho hnp hev
  have hinv : paidState (processWebhook allOk store shops orders p).store shops
      (processWebhook allOk store shops orders p).world.orders p.payment_id := by
    refine ⟨⟨{ e.mapping with status := p.status },
      if e.ttl > 0 then e.ttl else PAYMENT_TTL⟩, hstore, ⟨sd, hs⟩, ⟨o', ho', hp'⟩⟩
  have hrest := processWebhookSeq_paidState shops p.payment_id (List.replicate k p)
    (processWebhook allOk store shops orders p).store
    (processWebhook allOk store shops orders p).world.orders
    (fun q hq => by rw [List.eq_of_mem_replicate hq]; exact ⟨rfl, hev⟩) hinv
  simp only [processWebhookSeq, countCapture_append]
  omega

/-- The `world` component of a webhook run with mapping and shop present is the
dispatched handler's final state. -/
theorem processWebhook_world (f : ShopifyFlags) (store : Store) (shops : Shops)
    (orders : Orders) (p : WebhookPayload) (m : PaymentMapping) (sd : ShopData)
    (hm : getPaymentMapping store p.payment_id = some m)
    (hs : getShop shops m.shopDomain = some sd) :
    (processWebhook f store shops orders p).world
      = (dispatchWebhookEvent f m p ⟨orders, []⟩).st := by
  cases hr : (dispatchWebhookEvent f m p ⟨orders, []⟩).out with
  | ok a => simp [processWebhook, hm, hs, hr]
  | error a => simp [processWebhook, hm, hs, hr]

/-- The HTTP status of a webhook run with mapping and shop present: 200 when
the dispatched handler returns, 500 when it throws. -/
theorem processWebhook_http (f : ShopifyFlags) (store : Store) (shops : Shops)
    (orders : Orders) (p : WebhookPayload) (m : PaymentMapping) (sd : ShopData)
    (hm : getPaymentMapping store p.payment_id = some m)
    (hs : getShop shops m.shopDomain = some sd) :
    (processWebhook f store shops orders p).httpStatus
      = (match (dispatchWebhookEvent f m p ⟨orders, []⟩).out with
          | .ok _ => 200
          | .error _ => 500) := by
  cases hr : (dispatchWebhookEvent f m p ⟨orders, []⟩).out with
  | ok a => simp [processWebhook, hm, hs, hr]
  | error a => simp [processWebhook, hm, hs, hr]

/-- The success handler throws when the capture POST fails (a status check
that found the order unpaid does not save it). -/
theorem handleSuccess_markPaid_fails (f : ShopifyFlags) (mapping : PaymentMapping)
    (p : WebhookPayload) (s : SEff) (o : ShopifyOrder)
    (hg : f.failGetOrder = false) (hmp : f.failMarkPaid = true)
    (h : ordersGet s.orders mapping.shopifyOrderId = some o)
    (hnp : o.financial_status ≠ "paid") :
    (handlePaymentSuccess f mapping p s).out = .error () := by
  simp [handlePaymentSuccess, shopifyGetOrder, shopifyMarkOrderAsPaid, hg, hmp, h, hnp]

/-- The expiry handler swallows a failing cancel POST and still returns. -/
theorem handleExpired_cancel_fails (f : ShopifyFlags) (mapping : PaymentMapping)
    (p : WebhookPayload) (s : SEff) (o : ShopifyOrder)
    (hg : f.failGetOrder = false) (hc : f.failCancel = true)
    (h : ordersGet s.orders mapping.shopifyOrderId = some o)
    (hnc : o.cancelled_at = none) (hnp : o.financial_status ≠ "paid") :
    (handlePaymentExpired f mapping p s).out = .ok () := by
  simp [handlePaymentExpired, shopifyGetOrder, shopifyCancelOrder, hg, hc, h, hnc, hnp]

/-- `addOrderNote` always traces exactly its PUT, whether or not it throws. -/
theorem shopifyAddOrderNote_calls (f : ShopifyFlags) (oid : Nat) (note : String)
    (s : SEff) : (shopifyAddOrderNote f oid note s).st.calls
      = s.calls ++ [.putOrderNote oid note] := by
  unfold shopifyAddOrderNote
  by_cases hf : f.failAddNote
  · simp [hf]
  · cases ho : ordersGet s.orders oid <;> simp [hf, ho]

/-- `addOrderTags` issues no order-note write on any path. -/
theorem shopifyAddOrderTags_countNote (f : ShopifyFlags) (oid : Nat) (tags : String)
    (s : SEff) : countNote (shopifyAddOrderTags f oid tags s).st.calls
      = countNote s.calls := by
  unfold shopifyAddOrderTags shopifyGetOrder
  by_cases hg : f.failGetOrder
  · simp [hg, countNote, isNoteCall, List.countP_append]
  · cases ho : ordersGet s.orders oid with
    | none => simp [hg, ho, countNote, isNoteCall, List.countP_append]
    | some o =>
        by_cases ht : f.failAddTags
        · simp [hg, ho, ht, countNote, isNoteCall, List.countP_append]
        · simp [hg, ho, ht, countNote, isNoteCall, List.countP_append]

/-- Every run of the partial handler writes exactly one order note, whatever
the flags and the order book. -/
theorem handlePartial_countNote (f : ShopifyFlags) (mapping : PaymentMapping)
    (p : WebhookPayload) (s : SEff) :
    countNote (handlePaymentPartial f mapping p s).st.calls = countNote s.calls + 1 := by
  unfold handlePaymentPartial
  cases hr : (shopifyAddOrderNote f mapping.shopifyOrderId (partialNote mapping p) s).out with
  | error a =>
      simp [hr, shopifyAddOrderNote_calls, countNote, isNoteCall, List.countP_append]
  | ok a =>
      have h2 := shopifyAddOrderTags_countNote f mapping.shopifyOrderId
        "crypto-partial, payzcore"
        (shopifyAddOrderNote f mapping.shopifyOrderId (partialNote mapping p) s).st
      have h1 := shopifyAddOrderNote_calls f mapping.shopifyOrderId (partialNote mapping p) s
      simp only [hr]
      rw [h2, h1]
      simp [countNote, isNoteCall, List.countP_append]

/- ──────────────────────── Concrete fixtures ──────────────────────── -/

/-- A stored mapping for payment `pay_1` of order 1001 at shop
`demo.myshopify.com`, expected amount 50, whose `expiresAt` deadline
(2020-01-01) lies in the past. -/
def sampleMapping : PaymentMapping :=
  { shopDomain := "demo.myshopify.com", shopifyOrderId := 1001,
    shopifyOrderName := "#1001", amount := "50", currency := "USD",
    customerEmail := "buyer@example.com", network := "TRC20", token := "USDT",
    payzCorePaymentId := "pay_1", address := "TAddr1", expectedAmount := "50",
    qrCode := "", expiresAt := "2020-01-01T00:00:00Z", status := "pending",
    createdAt := "2019-12-31T23:00:00Z", notice := none, requiresTxid := none,
    confirmEndpoint := none }

/-- The same record already reconciled to the terminal status `paid`. -/
def samplePaidMapping : PaymentMapping := { sampleMapping with status := "paid" }

def sampleShopData : ShopData :=
  ⟨"shpat_sample_token", "read_orders,write_orders", "2019-12-01T00:00:00Z"⟩

def sampleShops : Shops := [("demo.myshopify.com", sampleShopData)]

def sampleOrder : ShopifyOrder :=
  ⟨1001, "#1001", "buyer@example.com", "pending", "50", "USD",
    "2019-12-31T22:00:00Z", none, none, ""⟩

def sampleOrders : Orders := [(1001, sampleOrder)]

def samplePaidOrders : Orders := [(1001, { sampleOrder with financial_status := "paid" })]

def pendingStore : Store := [(paymentKey "pay_1", ⟨sampleMapping, 3600⟩)]

def paidStore : Store := [(paymentKey "pay_1", ⟨samplePaidMapping, 3600⟩)]

/-- A `payment.completed` push with `status=paid` for `pay_1`. -/
def basePush : WebhookPayload :=
  { event := "payment.completed", payment_id := "pay_1", external_ref := "ref",
    external_order_id := none, network := "TRC20", address := "TAddr1",
    expected_amount := "50", paid_amount := "50", tx_hash := some "abc123",
    status := "paid", paid_at := some "2020-01-01T01:00:00Z",
    timestamp := "2020-01-01T01:00:00Z" }

/-- A `payment.expired` push with `status=expired` for `pay_1`. -/
def expirePush : WebhookPayload :=
  { basePush with
    event := "payment.expired", status := "expired",
    paid_amount := "0", tx_hash := none, paid_at := none }

/-- A `payment.partial` push reporting paid amount 30 of 50. -/
def partialPush30 : WebhookPayload :=
  { basePush with
    event := "payment.partial", status := "partial", paid_amount := "30" }

/-- A second partial push, now reporting paid amount 45 of 50. -/
def partialPush45 : WebhookPayload :=
  { partialPush30 with paid_amount := "45" }

/-- A PayzCore poll answer reporting `paid`. -/
def paidUpstream : PollUpstream := ⟨"paid", "50", "50", some "abc123", []⟩

/-- A PayzCore poll answer still reporting `pending`. -/
def pendingUpstream : PollUpstream := ⟨"pending", "50", "0", none, []⟩

def failCancelFlags : ShopifyFlags := ⟨false, false, false, false, true⟩

def failMarkPaidFlags : ShopifyFlags := ⟨false, true, false, false, false⟩

/- ──────────────────────── Claim theorems ──────────────────────── -/

/-- C1 (counterexample): a record stored with terminal status `paid` that then
receives a `status=expired` push ends with stored status `expired`, not
`paid` — the webhook handler persists the pushed status with no
terminal-status guard. -/
theorem c1_counterexample_paid_then_expired :
    (getPaymentMapping paidStore "pay_1").map (·.status) = some "paid"
    ∧ (getPaymentMapping
        (processWebhook allOk paidStore sampleShops samplePaidOrders expirePush).store
        "pay_1").map (·.status) = some "expired" := by
  decide

/-- C1 (amended): processing a webhook for an existing mapping always
overwrites the stored status with the observation's status, even when the
stored status is terminal; the stored record is never protected by a
terminal-status guard (only the Shopify order itself is guarded, by its own
financial state). -/
theorem c1_terminal_status_overwritten (f : ShopifyFlags) (store : Store)
    (shops : Shops) (orders : Orders) (p : WebhookPayload) (m : PaymentMapping)
    (hm : getPaymentMapping store p.payment_id = some m)
    (hterm : m.status ∈ TERMINAL_STATUSES) :
    getPaymentMapping (processWebhook f store shops orders p).store p.payment_id
      = some { m with status := p.status } := by
  rw [processWebhook_store_present f store shops orders p m hm]
  exact getPaymentMapping_update store p.payment_id p.status m hm

/-- C1 witness: the amended theorem applied to the `paid` record receiving the
`expired` push. -/
theorem c1_witness :
    getPaymentMapping
        (processWebhook allOk paidStore sampleShops samplePaidOrders expirePush).store
        "pay_1"
      = some { samplePaidMapping with status := "expired" } :=
  c1_terminal_status_overwritten allOk paidStore sampleShops samplePaidOrders
    expirePush samplePaidMapping (by decide) (by decide)

/-- C4 (counterexample): at the same starting state, a poll observing `paid`
issues no Shopify call at all, while the corresponding `payment.completed`
push issues one capture call — the poll path does not share the push path's
side effects. -/
theorem c4_counterexample_poll_no_capture :
    (processStatusPoll pendingStore "pay_1" (some paidUpstream)).calls = []
    ∧ countCapture
        (processWebhook allOk pendingStore sampleShops sampleOrders basePush).world.calls
      = 1 := by
  decide

/-- C4 (amended): the poll endpoint shares only the stored-status update with
the push path: it performs no commerce side effect (empty Shopify call
trace), and for the same reported status its resulting store equals the
store a push produces, so in any interleaving of one poll and one push all
side effects come from the push alone. -/
theorem c4_poll_updates_store_only (f : ShopifyFlags) (store : Store)
    (shops : Shops) (orders : Orders) (pid : String) (u : PollUpstream)
    (p : WebhookPayload)
    (hpid : p.payment_id = pid) (hst : p.status = u.status) :
    (processStatusPoll store pid (some u)).calls = []
    ∧ (processStatusPoll store pid (some u)).store
        = (processWebhook f store shops orders p).store := by
  subst hpid
  constructor
  · cases hm : getPaymentMapping store p.payment_id <;> simp [processStatusPoll, hm]
  · cases hm : getPaymentMapping store p.payment_id with
    | none =>
        rw [processWebhook_store_absent f store shops orders p hm]
        simp [processStatusPoll, hm]
    | some m =>
        rw [processWebhook_store_present f store shops orders p m hm]
        simp [processStatusPoll, hm, hst]

/-- C4 witness: the amended theorem at the concrete pending record, the `paid`
poll answer, and the `payment.completed` push. -/
theorem c4_witness :
    (processStatusPoll pendingStore "pay_1" (some paidUpstream)).calls = []
    ∧ (processStatusPoll pendingStore "pay_1" (some paidUpstream)).store
        = (processWebhook allOk pendingStore sampleShops sampleOrders basePush).store :=
  c4_poll_updates_store_only allOk pendingStore sampleShops sampleOrders "pay_1"
    paidUpstream basePush rfl rfl

/-- C5 (counterexample): the pending record's `expiresAt` (2020-01-01) is long
past, yet a poll observation reporting `pending` leaves the stored status
`pending` — it is not forced to `expired`. -/
theorem c5_counterexample_deadline_not_enforced :
    sampleMapping.expiresAt = "2020-01-01T00:00:00Z"
    ∧ (getPaymentMapping
        (processStatusPoll pendingStore "pay_1" (some pendingUpstream)).store
        "pay_1").map (·.status) = some "pending" := by
  decide

/-- C5 (amended): neither the webhook handler nor the poll endpoint consults
`expiresAt`: for a record in any non-terminal status the stored status after
an observation is exactly the observed status, whatever the deadline — an
observation reporting `pending` leaves `pending`, never forcing
`expired`. -/
theorem c5_deadline_ignored (f : ShopifyFlags) (store : Store) (shops : Shops)
    (orders : Orders) (p : WebhookPayload) (u : PollUpstream) (m : PaymentMapping)
    (hm : getPaymentMapping store p.payment_id = some m)
    (hnt : m.status ∉ TERMINAL_STATUSES) :
    (getPaymentMapping (processWebhook f store shops orders p).store
        p.payment_id).map (·.status) = some p.status
    ∧ (getPaymentMapping (processStatusPoll store p.payment_id (some u)).store
        p.payment_id).map (·.status) = some u.status := by
  constructor
  · rw [processWebhook_store_present f store shops orders p m hm,
      getPaymentMapping_update store p.payment_id p.status m hm]
    rfl
  · have hps : (processStatusPoll store p.payment_id (some u)).store
        = updatePaymentMappingStatus store p.payment_id u.status := by
      simp [processStatusPoll, hm]
    rw [hps, getPaymentMapping_update store p.payment_id u.status m hm]
    rfl

/-- C5 witness: the amended theorem at the pending record (deadline 2020),
a `payment.completed` push and a `pending` poll answer. -/
theorem c5_witness :
    (getPaymentMapping
        (processWebhook allOk pendingStore sampleShops sampleOrders basePush).store
        "pay_1").map (·.status) = some "paid"
    ∧ (getPaymentMapping
        (processStatusPoll pendingStore "pay_1" (some pendingUpstream)).store
        "pay_1").map (·.status) = some "pending" :=
  c5_deadline_ignored allOk pendingStore sampleShops sampleOrders basePush
    pendingUpstream sampleMapping (by decide) (by decide)

/-- C2 witness: two duplicate `payment.completed` pushes against the pending
record produce exactly one capture call. -/
theorem c2_witness :
    countCapture (processWebhookSeq allOk pendingStore sampleShops sampleOrders
      (List.replicate 2 basePush)).2.2 = 1 :=
  c2_duplicate_pushes_one_capture 2 (by decide) pendingStore sampleShops
    sampleOrders basePush ⟨sampleMapping, 3600⟩ sampleShopData sampleOrder
    (by decide) (by decide) (by decide) (by decide) rfl rfl

/-- C3 (counterexample): a `payment.expired` push whose cancel call fails is
answered with HTTP 200 (not 500), and the stored record has already been
rewritten from `pending` to `expired` — nothing is rolled back and no
retry is requested. -/
theorem c3_counterexample_expired_failure :
    (getPaymentMapping pendingStore "pay_1").map (·.status) = some "pending"
    ∧ (processWebhook failCancelFlags pendingStore sampleShops sampleOrders
        expirePush).httpStatus = 200
    ∧ (getPaymentMapping (processWebhook failCancelFlags pendingStore sampleShops
        sampleOrders expirePush).store "pay_1").map (·.status) = some "expired" := by
  decide

/-- C3 (amended): the pushed status is persisted before any commerce call, so
on a commerce failure the stored record already carries the observation's
status; only the `payment.completed`/`payment.overpaid` path surfaces the
failure as HTTP 500 (so the sender redelivers), while a failing cancel on
the `payment.expired` path is swallowed and answered with HTTP 200. -/
theorem c3_persist_before_side_effects (f : ShopifyFlags) (store : Store)
    (shops : Shops) (orders : Orders) (p : WebhookPayload) (m : PaymentMapping)
    (sd : ShopData) (o : ShopifyOrder)
    (hm : getPaymentMapping store p.payment_id = some m)
    (hs : getShop shops m.shopDomain = some sd)
    (ho : ordersGet orders m.shopifyOrderId = some o)
    (hg : f.failGetOrder = false) :
    (p.event = "payment.completed" → o.financial_status ≠ "paid" →
      f.failMarkPaid = true →
      (processWebhook f store shops orders p).httpStatus = 500
      ∧ (getPaymentMapping (processWebhook f store shops orders p).store
          p.payment_id).map (·.status) = some p.status)
    ∧ (p.event = "payment.expired" → o.cancelled_at = none →
      o.financial_status ≠ "paid" → f.failCancel = true →
      (processWebhook f store shops orders p).httpStatus = 200
      ∧ (getPaymentMapping (processWebhook f store shops orders p).store
          p.payment_id).map (·.status) = some p.status) := by
  have hstore : (getPaymentMapping (processWebhook f store shops orders p).store
      p.payment_id).map (·.status) = some p.status := by
    rw [processWebhook_store_present f store shops orders p m hm,
      getPaymentMapping_update store p.payment_id p.status m hm]
    rfl
  constructor
  · intro hev hnp hmp
    refine ⟨?_, hstore⟩
    have hd : (dispatchWebhookEvent f m p ⟨orders, []⟩).out = .error () := by
      simp [dispatchWebhookEvent, hev,
        handleSuccess_markPaid_fails f m p ⟨orders, []⟩ o hg hmp ho hnp]
    rw [processWebhook_http f store shops orders p m sd hm hs, hd]
  · intro hev hnc hnp hc
    refine ⟨?_, hstore⟩
    have hd : (dispatchWebhookEvent f m p ⟨orders, []⟩).out = .ok () := by
      simp [dispatchWebhookEvent, hev,
        handleExpired_cancel_fails f m p ⟨orders, []⟩ o hg hc ho hnc hnp]
    rw [processWebhook_http f store shops orders p m sd hm hs, hd]

/-- C3 witness: the amended theorem's completed-path conjunct at the pending
record with a failing capture call: HTTP 500 and the status already
persisted as `paid`. -/
theorem c3_witness :
    (processWebhook failMarkPaidFlags pendingStore sampleShops sampleOrders
      basePush).httpStatus = 500
    ∧ (getPaymentMapping (processWebhook failMarkPaidFlags pendingStore sampleShops
        sampleOrders basePush).store "pay_1").map (·.status) = some "paid" :=
  (c3_persist_before_side_effects failMarkPaidFlags pendingStore sampleShops
    sampleOrders basePush sampleMapping sampleShopData sampleOrder
    (by decide) (by decide) (by decide) rfl).1 rfl (by decide) rfl

/-- C7 (counterexample): two `payment.partial` pushes both reporting paid
amount 30 (expected 50) produce two order notes, not one — the second
identical observation is not deduplicated by amount. -/
theorem c7_counterexample_repeat_note :
    countNote (processWebhookSeq allOk pendingStore sampleShops sampleOrders
      [partialPush30, partialPush30]).2.2 = 2 := by
  decide

/-- C7 (amended): partial-payment notes are not keyed by the paid amount:
every `payment.partial` delivery for an existing mapping with an installed
shop writes exactly one order note, whatever the reported amount and
whatever was noted before (so amounts 30, 30, 45 produce three notes, one
each). -/
theorem c7_every_partial_notes (f : ShopifyFlags) (store : Store) (shops : Shops)
    (orders : Orders) (p : WebhookPayload) (m : PaymentMapping) (sd : ShopData)
    (hm : getPaymentMapping store p.payment_id = some m)
    (hs : getShop shops m.shopDomain = some sd)
    (hev : p.event = "payment.partial") :
    countNote (processWebhook f store shops orders p).world.calls = 1 := by
  rw [processWebhook_world f store shops orders p m sd hm hs]
  have hd : dispatchWebhookEvent f m p ⟨orders, []⟩
      = handlePaymentPartial f m p ⟨orders, []⟩ := by
    simp [dispatchWebhookEvent, hev]
  rw [hd, handlePartial_countNote]
  simp [countNote]

/-- C7 witness: one `payment.partial` push with amount 30 yields exactly one
note call. -/
theorem c7_witness :
    countNote (processWebhook allOk pendingStore sampleShops sampleOrders
      partialPush30).world.calls = 1 :=
  c7_every_partial_notes allOk pendingStore sampleShops sampleOrders
    partialPush30 sampleMapping sampleShopData (by decide) (by decide) rfl

/-- C8: when the upstream PayzCore query fails, the status endpoint answers
HTTP 200 with the mapping's cached status, `paid_amount` `"0"`, the cached
expected amount, `is_terminal=false` and `is_paid=false`, and leaves the
store untouched. -/
theorem c8_poll_failure_returns_cached (store : Store) (pid : String)
    (m : PaymentMapping) (hm : getPaymentMapping store pid = some m) :
    processStatusPoll store pid none
      = ⟨200, m.status, "0", m.expectedAmount, none, [], false, false, store, []⟩ := by
  simp [processStatusPoll, hm]

/-- C8 witness: the theorem at the concrete pending record. -/
theorem c8_witness :
    processStatusPoll pendingStore "pay_1" none
      = ⟨200, "pending", "0", "50", none, [], false, false, pendingStore, []⟩ :=
  c8_poll_failure_returns_cached pendingStore "pay_1" sampleMapping (by decide)

/-- C10: `updatePaymentMappingStatus` is a no-op when no mapping exists, and
otherwise rewrites only the `status` field of the stored record — every
other field rides along unchanged in `{ e.mapping with status := st }` —
keeping the remaining TTL when positive and resetting it to the 7-day
default otherwise, while every other key of the store is untouched. -/
theorem c10_update_status_frame (s : Store) (pid st : String) :
    (getPaymentMapping s pid = none → updatePaymentMappingStatus s pid st = s)
    ∧ (∀ e : StoredMapping, storeGet s (paymentKey pid) = some e →
        storeGet (updatePaymentMappingStatus s pid st) (paymentKey pid)
          = some ⟨{ e.mapping with status := st },
              if e.ttl > 0 then e.ttl else PAYMENT_TTL⟩)
    ∧ (∀ k, k ≠ paymentKey pid →
        storeGet (updatePaymentMappingStatus s pid st) k = storeGet s k) := by
  refine ⟨?_, ?_, ?_⟩
  · intro h
    have hn : storeGet s (paymentKey pid) = none := by
      cases he : storeGet s (paymentKey pid) with
      | none => rfl
      | some e => simp [getPaymentMapping, he] at h
    exact updateStatus_absent s pid st hn
  · intro e he
    exact updateStatus_present s pid st e he
  · intro k hk
    exact updateStatus_frame s pid st k hk

/-- C10 witness: the frame theorem at the concrete pending record with a
positive remaining TTL of 3600 seconds. -/
theorem c10_witness :
    storeGet (updatePaymentMappingStatus pendingStore "pay_1" "confirming")
        (paymentKey "pay_1")
      = some ⟨{ sampleMapping with status := "confirming" }, 3600⟩ := by
  have h := (c10_update_status_frame pendingStore "pay_1" "confirming").2.1
    ⟨sampleMapping, 3600⟩ (by decide)
  exact h.trans (by decide)

/-- C9: with an existing mapping that has `requiresTxid` set and a non-empty
confirm endpoint, the confirm route rejects with a 400 error every
`tx_hash` whose trimmed, `0x`-stripped form is not a 10–128-character hex
string, and forwards every conforming hash (trimmed) to the record's
PayzCore confirm endpoint. -/
theorem c9_confirm_validation (store : Store) (pid : String) (m : PaymentMapping)
    (ep : String) (tx : String)
    (hm : getPaymentMapping store pid = some m)
    (hreq : m.requiresTxid = some true)
    (hep : m.confirmEndpoint = some ep) (hne : ep ≠ "") :
    (isValidTxHashFormat (cleanTxHash tx) = false →
      ∃ msg, processConfirmSubmission store pid (some tx) = .badRequest msg)
    ∧ (isValidTxHashFormat (cleanTxHash tx) = true →
      processConfirmSubmission store pid (some tx) = .forwarded ep (jsTrim tx)) := by
  constructor
  · intro hbad
    by_cases h0 : tx = "" ∨ (jsTrim tx).length = 0
    · exact ⟨"Missing or invalid tx_hash",
        by simp [processConfirmSubmission, hm, hreq, hep, hne, jsTruthy, h0]⟩
    · exact ⟨"Invalid transaction hash format",
        by simp [processConfirmSubmission, hm, hreq, hep, hne, jsTruthy, h0, hbad]⟩
  · intro hok
    have h0 : ¬ (tx = "" ∨ (jsTrim tx).length = 0) := by
      rintro (rfl | hz)
      · exact absurd hok (by decide)
      · have htr : jsTrim tx = "" := by
          cases htm : jsTrim tx with
          | mk data =>
              cases data with
              | nil => rfl
              | cons c cs => rw [htm] at hz; simp [String.length] at hz
        have hclean : cleanTxHash tx = "" := by
          unfold cleanTxHash
          rw [htr]
          decide
        rw [hclean] at hok
        exact absurd hok (by decide)
    simp [processConfirmSubmission, hm, hreq, hep, hne, jsTruthy, h0, hok, jsStr]

/-- A mapping that requires a manually-keyed transaction hash. -/
def txidMapping : PaymentMapping :=
  { sampleMapping with
    requiresTxid := some true, confirmEndpoint := some "/v1/payments/pay_1/confirm" }

def txidStore : Store := [(paymentKey "pay_1", ⟨txidMapping, 3600⟩)]

/-- C9 witness: a conforming `0x`-prefixed hash is forwarded to the record's
confirm endpoint. -/
theorem c9_witness :
    processConfirmSubmission txidStore "pay_1" (some "0xabcdef1234")
      = .forwarded "/v1/payments/pay_1/confirm" "0xabcdef1234" :=
  (c9_confirm_validation txidStore "pay_1" txidMapping "/v1/payments/pay_1/confirm"
    "0xabcdef1234" (by decide) rfl rfl (by decide)).2 (by decide)

/-- C6: the middleware accepts exactly the requests carrying all three pieces
with a parseable timestamp within the 5-minute replay window, a
64-hex-character signature, and a signature whose bytes equal the
HMAC-SHA256 of `timestamp ++ "." ++ rawBody` under the webhook secret; it
rejects with 401 a missing signature or timestamp header, a stale
timestamp even when the signature is correct, a malformed signature, and
any signature whose bytes differ from the expected digest — so any change
to the timestamp or body that changes the digest fails verification. -/
theorem c6_signature_verification (hmac : String → String → String)
    (parseTs : String → Option Int) (now : Int) (secret : String) :
    (∀ req : VerifyRequest,
      verifyPayzCoreWebhook hmac parseTs now secret req = .ok ↔
      ∃ sig ts body t, req.signature = some sig ∧ req.timestamp = some ts
        ∧ req.rawBody = some body ∧ parseTs ts = some t
        ∧ (now - t).natAbs ≤ 5 * 60 * 1000 ∧ isHex64 sig = true
        ∧ hexLower sig = hexLower (hmac secret (ts ++ "." ++ body)))
    ∧ (∀ req : VerifyRequest, req.signature = none →
        verifyPayzCoreWebhook hmac parseTs now secret req
          = .unauthorized "Missing signature header")
    ∧ (∀ (req : VerifyRequest) (sig : String), req.signature = some sig →
        req.timestamp = none →
        verifyPayzCoreWebhook hmac parseTs now secret req
          = .unauthorized "Missing timestamp header")
    ∧ (∀ (sig ts : String) (body : Option String) (t : Int),
        parseTs ts = some t → (now - t).natAbs > 5 * 60 * 1000 →
        verifyPayzCoreWebhook hmac parseTs now secret ⟨some sig, some ts, body⟩
          = .unauthorized "Timestamp validation failed")
    ∧ (∀ (sig ts body : String) (t : Int),
        parseTs ts = some t → (now - t).natAbs ≤ 5 * 60 * 1000 →
        isHex64 sig = false →
        verifyPayzCoreWebhook hmac parseTs now secret ⟨some sig, some ts, some body⟩
          = .unauthorized "Invalid signature")
    ∧ (∀ (sig ts body : String) (t : Int),
        parseTs ts = some t → (now - t).natAbs ≤ 5 * 60 * 1000 →
        isHex64 sig = true →
        hexLower sig ≠ hexLower (hmac secret (ts ++ "." ++ body)) →
        verifyPayzCoreWebhook hmac parseTs now secret ⟨some sig, some ts, some body⟩
          = .unauthorized "Invalid signature") := by
  refine ⟨?_, ?_, ?_, ?_, ?_, ?_⟩
  · rintro ⟨s1, t1, b1⟩
    constructor
    · intro h
      cases s1 with
      | none => simp [verifyPayzCoreWebhook] at h
      | some sig =>
      cases t1 with
      | none => simp [verifyPayzCoreWebhook] at h
      | some ts =>
      cases hpt : parseTs ts with
      | none => simp [verifyPayzCoreWebhook, hpt] at h
      | some t =>
      by_cases hfresh : (now - t).natAbs > 5 * 60 * 1000
      · simp [verifyPayzCoreWebhook, hpt, hfresh] at h
      · cases b1 with
        | none => simp [verifyPayzCoreWebhook, hpt, hfresh] at h
        | some body =>
        by_cases hhex : isHex64 sig
        · by_cases heq : hexLower sig = hexLower (hmac secret (ts ++ "." ++ body))
          · exact ⟨sig, ts, body, t, rfl, rfl, rfl, hpt, by omega, hhex, heq⟩
          · simp [verifyPayzCoreWebhook, hpt, hfresh, hhex, heq] at h
        · simp [verifyPayzCoreWebhook, hpt, hfresh, hhex] at h
    · rintro ⟨sig, ts, body, t, h1, h2, h3, hpt, hfresh, hhex, heq⟩
      subst h1; subst h2; subst h3
      have hfr : ¬ (now - t).natAbs > 5 * 60 * 1000 := by omega
      simp [verifyPayzCoreWebhook, hpt, hfr, hhex, heq]
  · rintro ⟨s1, t1, b1⟩ hs
    subst hs
    simp [verifyPayzCoreWebhook]
  · rintro ⟨s1, t1, b1⟩ sig hs ht
    subst hs; subst ht
    simp [verifyPayzCoreWebhook]
  · intro sig ts body t hpt hstale
    simp [verifyPayzCoreWebhook, hpt, hstale]
  · intro sig ts body t hpt hfresh hhex
    have hfr : ¬ (now - t).natAbs > 5 * 60 * 1000 := by omega
    simp [verifyPayzCoreWebhook, hpt, hfr, hhex]
  · intro sig ts body t hpt hfresh hhex hne
    have hfr : ¬ (now - t).natAbs > 5 * 60 * 1000 := by omega
    simp [verifyPayzCoreWebhook, hpt, hfr, hhex, hne]

/-- A 64-character lowercase hex digest used as a concrete HMAC value. -/
def hexA : String :=
  "aaaaaaaaaaaaaaaaaaaaaaaaaaaaaaaaaaaaaaaaaaaaaaaaaaaaaaaaaaaaaaaa"

/-- C6 witness: a request whose signature equals the digest of
`timestamp ++ "." ++ body`, with a timestamp parsed to the current instant,
passes verification. -/
theorem c6_witness :
    verifyPayzCoreWebhook (fun _ _ => hexA) (fun _ => some 0) 0 "secret"
      ⟨some hexA, some "2020-01-01T00:00:00Z", some "body"⟩ = .ok :=
  ((c6_signature_verification (fun _ _ => hexA) (fun _ => some 0) 0 "secret").1
    ⟨some hexA, some "2020-01-01T00:00:00Z", some "body"⟩).mpr
    ⟨hexA, "2020-01-01T00:00:00Z", "body", 0, rfl, rfl, rfl, rfl,
      by decide, by decide, rfl⟩
